import Mathlib

set_option maxRecDepth 16384

/-!
Verification of the client-side core of the centry-core/artifacts UI:
the file-size comparator (filesizeSorter / retnum, from
static/js/components/utils/formatters.js) and the bucket-table row filters
(the two filterAlgorithm closures registered in the mounted hook of
static/js/components/ArtifactBucketAside.js).

Modelling conventions for the JavaScript source:
- JS numbers are IEEE-754 doubles.  The values that arise here are
  non-negative integers, NaN and Infinity, modelled by JsNum: parseInt("")
  is NaN; a non-empty digit run is evaluated exactly and then rounded to
  the nearest double (53-bit significand, round-to-nearest ties-to-even,
  overflow to Infinity from 2 ^ 1024 on); multiplying a finite double by
  the power-of-two unit multiplier rescales only the exponent, so it is
  exact below the overflow threshold and overflows to Infinity at 2 ^ 1024.
- NaN and Infinity propagate through the arithmetic; the JS comparison
  operators are modelled by jsGt and jsLt, which are always false on NaN.
- A thrown TypeError (row.tags.type when row.tags is undefined) is modelled
  as (none : Option Bool); a normal boolean return is some b.
- The regex replace /[^0-9]/g keeps exactly the ASCII digit characters,
  /[^a-zA-Z]+/g keeps exactly the ASCII letters; toUpperCase / toLowerCase
  on these ASCII-only inputs are the ASCII case maps.
-/

/-- The digit characters of a string, in order: models
    number.replace over the class of non-digits with the empty string. -/
def jsDigitsOnly (s : String) : String :=
  ⟨s.data.filter Char.isDigit⟩

/-- The letter characters of a string, in order: models
    number.replace over the class of non-letters with the empty string. -/
def jsLettersOnly (s : String) : String :=
  ⟨s.data.filter Char.isAlpha⟩

/-- ASCII upper-casing, models String.prototype.toUpperCase on ASCII input. -/
def jsToUpperCase (s : String) : String :=
  ⟨s.data.map Char.toUpper⟩

/-- ASCII lower-casing, models String.prototype.toLowerCase on ASCII input. -/
def jsToLowerCase (s : String) : String :=
  ⟨s.data.map Char.toLower⟩

/-- Numeric value of an ASCII digit character. -/
def digitVal (c : Char) : Nat :=
  c.toNat - 48

/-- A JS number as it arises in this code: NaN, positive Infinity, or a
    non-negative integer that is exactly representable as a double. -/
inductive JsNum where
  | nan : JsNum
  | inf : JsNum
  | num : Nat → JsNum
deriving DecidableEq, Repr

/-- Floor of the base-2 logarithm, via an explicit fuel so the kernel can
    evaluate it; the fuel of 1100 covers every value below 2 ^ 1100, which
    is more than the double range needs. -/
def log2Aux : Nat → Nat → Nat
  | 0, _ => 0
  | fuel + 1, n => if n < 2 then 0 else log2Aux fuel (n / 2) + 1

/-- Round n to the nearest multiple of ulp, ties to the even multiple. -/
def roundNearestEven (n ulp : Nat) : Nat :=
  let q := n / ulp
  let r := n % ulp
  if 2 * r < ulp then q * ulp
  else if ulp < 2 * r then (q + 1) * ulp
  else if q % 2 = 0 then q * ulp else (q + 1) * ulp

/-- Round a non-negative integer to the nearest IEEE-754 double: exact
    below 2 ^ 53, otherwise rounded at the 53-bit significand (ties to
    even), and Infinity once the rounded value reaches 2 ^ 1024. -/
def toDouble (n : Nat) : JsNum :=
  if n < 2 ^ 53 then JsNum.num n
  else if 2 ^ 1024 ≤ n then JsNum.inf
  else
    let k := log2Aux 1100 n
    let rounded := roundNearestEven n (2 ^ (k - 52))
    if 2 ^ 1024 ≤ rounded then JsNum.inf else JsNum.num rounded

/-- Multiplication of a JS number by the (exact power-of-two) unit
    multiplier: NaN and Infinity propagate; on a finite double the product
    rescales only the exponent, so it is exact below the overflow
    threshold and overflows to Infinity at 2 ^ 1024. -/
def jsMulPow (x : JsNum) (m : Nat) : JsNum :=
  match x with
  | JsNum.nan => JsNum.nan
  | JsNum.inf => JsNum.inf
  | JsNum.num n => if n * m < 2 ^ 1024 then JsNum.num (n * m) else JsNum.inf

/-- The JS greater-than on these numbers: false whenever either side is
    NaN, Infinity above every finite value, numeric comparison otherwise. -/
def jsGt : JsNum → JsNum → Bool
  | JsNum.nan, _ => false
  | _, JsNum.nan => false
  | JsNum.inf, JsNum.inf => false
  | JsNum.inf, JsNum.num _ => true
  | JsNum.num _, JsNum.inf => false
  | JsNum.num x, JsNum.num y => decide (y < x)

/-- The JS less-than on these numbers: false whenever either side is NaN,
    every finite value below Infinity, numeric comparison otherwise. -/
def jsLt : JsNum → JsNum → Bool
  | JsNum.nan, _ => false
  | _, JsNum.nan => false
  | JsNum.inf, _ => false
  | JsNum.num _, JsNum.inf => true
  | JsNum.num x, JsNum.num y => decide (x < y)

/-- Models parseInt(s, 10) on a string that consists only of digit
    characters (the only shape retnum feeds it): the empty string parses to
    NaN, otherwise the base-10 value of the digit run rounded to the
    nearest double. -/
def jsParseIntDec (s : String) : JsNum :=
  if s.data.isEmpty then JsNum.nan
  else toDouble (s.data.foldl (fun a c => 10 * a + digitVal c) 0)

/-- The multiplier chosen by the switch on the upper-cased letter run:
    K, M, G, T select powers of 1024, anything else falls through to 1. -/
def unitMult (u : String) : Nat :=
  if u = "K" then 1024
  else if u = "M" then 1024 ^ 2
  else if u = "G" then 1024 ^ 3
  else if u = "T" then 1024 ^ 4
  else 1

/-- Model of retnum from formatters.js: extract the digit run and the
    upper-cased letter run, parse the digits base 10 (NaN on no digits),
    and scale by the unit multiplier chosen by the switch. -/
def retnum (s : String) : JsNum :=
  jsMulPow (jsParseIntDec (jsDigitsOnly s))
    (unitMult (jsToUpperCase (jsLettersOnly s)))

/-- Model of filesizeSorter from formatters.js: a and b are reassigned to
    their retnum values and compared; if either is NaN both comparisons are
    false and the function falls through to return 0. -/
def filesizeSorter (a b : String) : Int :=
  if jsGt (retnum a) (retnum b) then 1
  else if jsLt (retnum a) (retnum b) then -1
  else 0

/-- Does the string contain at least one digit character? -/
def containsDigit (s : String) : Bool :=
  s.data.any Char.isDigit

/-- Is the character one of the recognized unit letters (either case)? -/
def isUnitChar (c : Char) : Bool :=
  c == 'K' || c == 'k' || c == 'M' || c == 'm' ||
  c == 'G' || c == 'g' || c == 'T' || c == 't'

/-- The SizeString shape of the specification: a non-empty digit run
    followed by an optional single unit letter. -/
def isValidSizeString (s : String) : Bool :=
  let ds := s.data.takeWhile Char.isDigit
  let rest := s.data.drop ds.length
  !ds.isEmpty && (rest.isEmpty || (rest.length == 1 && isUnitChar (rest.headD 'x')))

/-- The optional tags record of a table row. -/
structure RowTags where
  type : String
deriving DecidableEq, Repr

/-- A bucket-table row: name is always present, tags may be absent. -/
structure Row where
  name : String
  tags : Option RowTags
deriving DecidableEq, Repr

/-- The criteria object passed by the tag filterBy call: filterBy is called
    with the single-key object holding the lower-cased select value. -/
structure TagFilters where
  tag : String
deriving DecidableEq, Repr

/-- The criteria object passed by the name filterBy call: filterBy is called
    with the single-key object holding the lower-cased input value. -/
structure NameFilters where
  name : String
deriving DecidableEq, Repr

/-- Models the JS conditional reading filters: a falsy filters object
    yields the sentinel string for the tag filter. -/
def filtersTag (filters : Option TagFilters) : String :=
  match filters with
  | some f => f.tag
  | none => "all"

/-- Models the JS conditional reading filters: a falsy filters object
    yields the empty string for the name filter. -/
def filtersName (filters : Option NameFilters) : String :=
  match filters with
  | some f => f.name
  | none => ""

/-- Does t occur at the very start of s?  Helper for jsIncludes. -/
def matchesHere (t s : List Char) : Bool :=
  match t, s with
  | [], _ => true
  | _ :: _, [] => false
  | a :: ts, b :: ss => a == b && matchesHere ts ss

/-- Does t occur contiguously anywhere in s? -/
def includesList (s t : List Char) : Bool :=
  match s with
  | [] => t.isEmpty
  | c :: rest => matchesHere t (c :: rest) || includesList rest t

/-- Models String.prototype.includes: case-sensitive substring test. -/
def jsIncludes (s t : String) : Bool :=
  includesList s.data t.data

/-- The tag filterAlgorithm closure from ArtifactBucketAside.js, with a
    thrown TypeError modelled as none: when the criterion is not the
    sentinel and the row has no tags record, row.tags.type throws. -/
def tagFilterAlgorithm (row : Row) (filters : Option TagFilters) : Option Bool :=
  let tag := filtersTag filters
  if tag = "all" then some true
  else
    match row.tags with
    | some t => some (t.type == tag)
    | none => none

/-- The name filterAlgorithm closure from ArtifactBucketAside.js: a plain
    case-sensitive includes of the criterion in the row name. -/
def nameFilterAlgorithm (row : Row) (filters : Option NameFilters) : Bool :=
  let name := filtersName filters
  jsIncludes row.name name

/-- The whole tag-filter pipeline of the changed.bs.select handler: the
    select value is lower-cased by the caller before it reaches the
    algorithm.  (The nullish fallback in the source is unreachable because
    toLowerCase always returns a string.) -/
def bucketFilterApply (row : Row) (value : String) : Option Bool :=
  tagFilterAlgorithm row (some ⟨jsToLowerCase value⟩)

/-- The whole name-filter pipeline of the bucketSearch input handler: the
    input value is lower-cased by the caller before it reaches the
    algorithm; the row name is used as stored. -/
def bucketSearchApply (row : Row) (value : String) : Bool :=
  nameFilterAlgorithm row (some ⟨jsToLowerCase value⟩)

/-- Searching for the empty string succeeds on every haystack, as JS
    includes does. -/
theorem includesList_nil (s : List Char) : includesList s [] = true := by
  cases s with
  | nil => rfl
  | cons c rest => simp [includesList, matchesHere]

/-- The big-endian digit fold computed by parseInt agrees with the base-10
    positional value of the digit list. -/
theorem foldl_digits_eq_ofDigits (l : List Char) (a : Nat) :
    l.foldl (fun acc c => 10 * acc + digitVal c) a
      = Nat.ofDigits 10 ((l.map digitVal).reverse) + a * 10 ^ l.length := by
  induction l generalizing a with
  | nil => simp [Nat.ofDigits]
  | cons c cs ih =>
      simp only [List.foldl_cons, ih, List.map_cons, List.reverse_cons,
        Nat.ofDigits_append, List.length_reverse, List.length_map,
        Nat.ofDigits_cons, Nat.ofDigits_nil, List.length_cons]
      ring

/-- Every branch of the unit switch yields a positive multiplier. -/
theorem unitMult_pos (u : String) : 1 ≤ unitMult u := by
  unfold unitMult
  split_ifs <;> norm_num

/-- A string with at least one digit character feeds parseInt a non-empty
    digit run; when the normalized value stays below 2 ^ 53 the double
    round-trip is exact, so retnum returns the positional value of the
    digit characters scaled by the unit multiplier. -/
theorem retnum_of_containsDigit (s : String) (h : containsDigit s = true)
    (hb : Nat.ofDigits 10 (((jsDigitsOnly s).data.map digitVal).reverse)
        * unitMult (jsToUpperCase (jsLettersOnly s)) < 2 ^ 53) :
    retnum s
      = JsNum.num (Nat.ofDigits 10 (((jsDigitsOnly s).data.map digitVal).reverse)
          * unitMult (jsToUpperCase (jsLettersOnly s))) := by
  have hne : s.data.filter Char.isDigit ≠ [] := by
    intro hnil
    rcases List.any_eq_true.mp h with ⟨c, hc, hd⟩
    have hcf := List.filter_eq_nil_iff.mp hnil c hc
    simp [hd] at hcf
  have hfold : (s.data.filter Char.isDigit).foldl (fun a c => 10 * a + digitVal c) 0
      = Nat.ofDigits 10 (((jsDigitsOnly s).data.map digitVal).reverse) := by
    rw [foldl_digits_eq_ofDigits]
    simp [jsDigitsOnly]
  have hn53 : Nat.ofDigits 10 (((jsDigitsOnly s).data.map digitVal).reverse) < 2 ^ 53 :=
    lt_of_le_of_lt
      (Nat.le_mul_of_pos_right _ (unitMult_pos (jsToUpperCase (jsLettersOnly s)))) hb
  have hp : jsParseIntDec (jsDigitsOnly s)
      = JsNum.num (Nat.ofDigits 10 (((jsDigitsOnly s).data.map digitVal).reverse)) := by
    have h1 : jsParseIntDec (jsDigitsOnly s)
        = toDouble ((s.data.filter Char.isDigit).foldl (fun a c => 10 * a + digitVal c) 0) := by
      show (if (s.data.filter Char.isDigit).isEmpty then JsNum.nan
          else toDouble ((s.data.filter Char.isDigit).foldl (fun a c => 10 * a + digitVal c) 0))
        = _
      rw [if_neg (by simp [hne])]
    rw [h1, hfold]
    unfold toDouble
    rw [if_pos hn53]
  show jsMulPow (jsParseIntDec (jsDigitsOnly s)) (unitMult (jsToUpperCase (jsLettersOnly s)))
      = _
  rw [hp]
  show (if Nat.ofDigits 10 (((jsDigitsOnly s).data.map digitVal).reverse)
        * unitMult (jsToUpperCase (jsLettersOnly s)) < 2 ^ 1024 then _ else _) = _
  rw [if_pos (lt_trans hb (Nat.pow_lt_pow_right (by norm_num) (by norm_num)))]

/-- A string with no digit character at all filters to the empty digit run,
    parseInt of which is NaN, and NaN propagates through the unit
    multiplication, so retnum is NaN. -/
theorem retnum_eq_nan_of_noDigit (s : String) (h : containsDigit s = false) :
    retnum s = JsNum.nan := by
  have hnil : s.data.filter Char.isDigit = [] := by
    apply List.filter_eq_nil_iff.mpr
    intro c hc hd
    have hany : s.data.any Char.isDigit = true := List.any_eq_true.mpr ⟨c, hc, hd⟩
    rw [containsDigit, hany] at h
    cases h
  unfold retnum jsParseIntDec jsDigitsOnly jsMulPow
  simp [hnil]

/-- The comparator is antisymmetric on all strings: if either side is NaN
    both orders fall through to 0, Infinity swaps 1 with -1 against a
    finite value, and on numbers the three ordering cases swap. -/
theorem filesizeSorter_antisymm (a b : String) :
    filesizeSorter a b = -(filesizeSorter b a) := by
  unfold filesizeSorter
  cases retnum a <;> cases retnum b <;>
    simp [jsGt, jsLt] <;> split_ifs <;> omega

/-- The comparator is reflexive on every string: NaN and Infinity compare
    neither above nor below themselves, and a number equals itself. -/
theorem filesizeSorter_self (a : String) : filesizeSorter a a = 0 := by
  unfold filesizeSorter
  cases retnum a <;> simp [jsGt, jsLt]

/-- C1 counterexample: the claim says the row named Backup-2023 is included
    under the search criterion backup, but the source never lower-cases the
    row name, so the case-sensitive includes fails. -/
theorem c1_name_filter_counterexample :
    ¬ (bucketSearchApply ⟨"Backup-2023", none⟩ "backup" = true) := by decide

/-- C1 (amended): a row is kept when the search criterion is empty or the
    filters object is absent; otherwise it is kept exactly when the row name
    as stored (not lower-cased) contains the lower-cased criterion as a
    substring.  The row named Backup-2023 is therefore excluded under both
    backup and restore, while a lower-case stored name matches an upper-case
    criterion. -/
theorem c1_name_filter_amended :
    (∀ row : Row, bucketSearchApply row "" = true)
    ∧ (∀ row : Row, nameFilterAlgorithm row none = true)
    ∧ (∀ (row : Row) (v : String),
        bucketSearchApply row v = jsIncludes row.name (jsToLowerCase v))
    ∧ bucketSearchApply ⟨"Backup-2023", none⟩ "backup" = false
    ∧ bucketSearchApply ⟨"Backup-2023", none⟩ "restore" = false
    ∧ bucketSearchApply ⟨"backup-2023", none⟩ "BACKUP" = true := by
  refine ⟨?_, ?_, ?_, by decide, by decide, by decide⟩
  · intro row
    show includesList row.name.data (jsToLowerCase "").data = true
    have h0 : (jsToLowerCase "").data = [] := by decide
    rw [h0]
    exact includesList_nil row.name.data
  · intro row
    show includesList row.name.data ("" : String).data = true
    exact includesList_nil row.name.data
  · intro row v
    rfl

/-- C2 counterexample: SizeSorter on the empty string and 5 does not return
    -1 as the claim states. -/
theorem c2_sizesorter_empty_counterexample :
    filesizeSorter "" "5" ≠ -1 := by decide

/-- C2 (amended): a string with no digits parses to NaN (modelled none),
    not 0; the NaN propagates through the comparator, whose comparisons are
    then both false, so SizeSorter on the empty string and 5 returns 0 in
    both argument orders. -/
theorem c2_sizesorter_empty_amended :
    retnum "" = JsNum.nan ∧ filesizeSorter "" "5" = 0 ∧ filesizeSorter "5" "" = 0 := by
  decide

/-- C3 counterexample: on a row with no tags field and a criterion other
    than the sentinel, the tag predicate dereferences row.tags.type and
    throws a TypeError (modelled none) instead of returning a boolean. -/
theorem c3_totality_counterexample :
    tagFilterAlgorithm ⟨"b", none⟩ (some ⟨"system"⟩) = none := by decide

/-- C3 (amended): SizeSorter always returns one of the three ordering
    values, and the tag predicate throws exactly when the row has no tags
    field and the effective criterion is not the sentinel all; on every
    other input it returns a boolean. -/
theorem c3_totality_amended :
    (∀ a b : String,
        filesizeSorter a b = 1 ∨ filesizeSorter a b = -1 ∨ filesizeSorter a b = 0)
    ∧ (∀ (row : Row) (filters : Option TagFilters),
        (tagFilterAlgorithm row filters = none
          ↔ (row.tags = none ∧ filtersTag filters ≠ "all"))) := by
  constructor
  · intro a b
    unfold filesizeSorter
    split_ifs <;> simp
  · intro row filters
    unfold tagFilterAlgorithm
    by_cases h : filtersTag filters = "all"
    · simp [h]
    · cases hr : row.tags with
      | none => simp [h, hr]
      | some t => simp [h, hr]

/-- C3 witness: the amended characterization instantiated at a concrete
    tags-less row and a concrete non-sentinel criterion. -/
theorem c3_totality_witness :
    tagFilterAlgorithm ⟨"w", none⟩ (some ⟨"local"⟩) = none :=
  (c3_totality_amended.2 ⟨"w", none⟩ (some ⟨"local"⟩)).mpr ⟨rfl, by decide⟩

/-- C4 counterexample: the claim says a row tagged local is included under
    the empty criterion, but the empty string is not the sentinel, so the
    code compares row.tags.type against the empty string and excludes the
    row. -/
theorem c4_tag_filter_counterexample :
    ¬ (bucketFilterApply ⟨"", some ⟨"local"⟩⟩ "" = some true) := by decide

/-- C4 (amended): the row is kept when the filters object is absent or the
    lower-cased criterion is the sentinel all; otherwise a row with a tags
    field is kept exactly when its tags.type equals the lower-cased
    criterion, so the empty criterion excludes a row tagged local. -/
theorem c4_tag_filter_amended :
    (∀ row : Row, tagFilterAlgorithm row none = some true)
    ∧ (∀ (row : Row) (v : String),
        jsToLowerCase v = "all" → bucketFilterApply row v = some true)
    ∧ (∀ (row : Row) (t : RowTags) (v : String),
        row.tags = some t → jsToLowerCase v ≠ "all" →
          bucketFilterApply row v = some (t.type == jsToLowerCase v))
    ∧ bucketFilterApply ⟨"", some ⟨"local"⟩⟩ "all" = some true
    ∧ bucketFilterApply ⟨"", some ⟨"local"⟩⟩ "ALL" = some true
    ∧ bucketFilterApply ⟨"", some ⟨"local"⟩⟩ "system" = some false
    ∧ bucketFilterApply ⟨"", some ⟨"local"⟩⟩ "" = some false
    ∧ bucketFilterApply ⟨"", some ⟨"local"⟩⟩ "LOCAL" = some true := by
  refine ⟨?_, ?_, ?_, by decide, by decide, by decide, by decide, by decide⟩
  · intro row
    rfl
  · intro row v h
    unfold bucketFilterApply tagFilterAlgorithm filtersTag
    simp [h]
  · intro row t v hrow h
    unfold bucketFilterApply tagFilterAlgorithm filtersTag
    simp [h, hrow]

/-- C4 witness: the amended predicate instantiated at concrete rows and
    criteria, discharging the hypotheses by evaluation. -/
theorem c4_tag_filter_witness :
    jsToLowerCase "ALL" = "all" ∧ bucketFilterApply ⟨"x", none⟩ "ALL" = some true :=
  ⟨by decide, c4_tag_filter_amended.2.1 ⟨"x", none⟩ "ALL" (by decide)⟩

/-- C6 counterexample: parseInt returns a double, so the digit run
    9007199254740993 (one above 2 ^ 53) is rounded to 9007199254740992 and
    the compared value is not the exact base-10 integer of the digit
    characters; consequently two distinct digit runs compare as equal. -/
theorem c6_normalization_counterexample :
    retnum "9007199254740993" = JsNum.num 9007199254740992
    ∧ (9007199254740992 : Nat) ≠ 9007199254740993
    ∧ filesizeSorter "9007199254740993" "9007199254740992" = 0 := by
  refine ⟨?_, ?_, ?_⟩ <;> decide

/-- C6 (amended): on every string with at least one digit whose normalized
    value lies below 2 ^ 53 (the range where doubles are exact), the
    compared value is the base-10 positional value of the digit characters
    scaled by the unit multiplier; beyond that range parseInt rounds the
    digit run to the nearest double.  The multiplier is the power of 1024
    selected by the upper-cased letter run (so unit letters are
    case-insensitive and an absent or unrecognized suffix selects 1024 to
    the 0); and the three quoted comparisons evaluate as the claim
    states. -/
theorem c6_normalization_amended :
    (∀ s : String, containsDigit s = true →
        Nat.ofDigits 10 (((jsDigitsOnly s).data.map digitVal).reverse)
            * unitMult (jsToUpperCase (jsLettersOnly s)) < 2 ^ 53 →
        retnum s
          = JsNum.num (Nat.ofDigits 10 (((jsDigitsOnly s).data.map digitVal).reverse)
              * unitMult (jsToUpperCase (jsLettersOnly s))))
    ∧ unitMult "" = 1024 ^ 0 ∧ unitMult "KB" = 1024 ^ 0
    ∧ unitMult "K" = 1024 ^ 1 ∧ unitMult "M" = 1024 ^ 2
    ∧ unitMult "G" = 1024 ^ 3 ∧ unitMult "T" = 1024 ^ 4
    ∧ retnum "10k" = retnum "10K" ∧ retnum "5m" = retnum "5M"
    ∧ filesizeSorter "10K" "1M" = -1
    ∧ filesizeSorter "2M" "2048K" = 0
    ∧ filesizeSorter "1G" "999M" = 1 := by
  refine ⟨retnum_of_containsDigit, ?_⟩
  decide

/-- C6 witness: the amended normalization statement instantiated at the
    concrete input 10K, whose digit run is 10, unit is K, and normalized
    value 10240 is well below 2 ^ 53. -/
theorem c6_normalization_amended_witness :
    containsDigit "10K" = true
    ∧ Nat.ofDigits 10 (((jsDigitsOnly "10K").data.map digitVal).reverse)
        * unitMult (jsToUpperCase (jsLettersOnly "10K")) < 2 ^ 53
    ∧ retnum "10K"
        = JsNum.num (Nat.ofDigits 10 (((jsDigitsOnly "10K").data.map digitVal).reverse)
            * unitMult (jsToUpperCase (jsLettersOnly "10K"))) :=
  ⟨by decide, by decide, c6_normalization_amended.1 "10K" (by decide) (by decide)⟩

/-- C7: on valid SizeString inputs the comparator is antisymmetric and
    reflexive.  (The proof goes through the unconditional comparator
    lemmas, which hold for all strings.) -/
theorem c7_sizesorter_antisymm_refl :
    (∀ a b : String, isValidSizeString a = true → isValidSizeString b = true →
        filesizeSorter a b = -(filesizeSorter b a))
    ∧ (∀ a : String, isValidSizeString a = true → filesizeSorter a a = 0) :=
  ⟨fun a b _ _ => filesizeSorter_antisymm a b, fun a _ => filesizeSorter_self a⟩

/-- C7 witness: antisymmetry and reflexivity instantiated at the valid size
    strings 10K and 5. -/
theorem c7_sizesorter_antisymm_refl_witness :
    isValidSizeString "10K" = true ∧ isValidSizeString "5" = true
    ∧ filesizeSorter "10K" "5" = -(filesizeSorter "5" "10K")
    ∧ filesizeSorter "10K" "10K" = 0 :=
  ⟨by decide, by decide,
    c7_sizesorter_antisymm_refl.1 "10K" "5" (by decide) (by decide),
    c7_sizesorter_antisymm_refl.2 "10K" (by decide)⟩

/-- C8: the digit-extraction step strips the decimal point, so the digits
    of the string 1.5M parse as 15 and the normalized value is 15 times
    1024 squared, not a fractional multiple. -/
theorem c8_decimal_quirk :
    jsDigitsOnly "1.5M" = "15"
    ∧ jsParseIntDec (jsDigitsOnly "1.5M") = JsNum.num 15
    ∧ retnum "1.5M" = JsNum.num (15 * 1024 ^ 2) := by
  refine ⟨?_, ?_, ?_⟩ <;> decide

/-- C9: the comparator and both filter predicates are deterministic: two
    runs on equal inputs produce equal outputs.  Purity holds by
    construction of the embedding: the source functions read only their
    arguments, and each is modelled as a pure function of those arguments
    alone. -/
theorem c9_purity_determinism :
    (∀ a₁ a₂ b₁ b₂ : String, a₁ = a₂ → b₁ = b₂ →
        filesizeSorter a₁ b₁ = filesizeSorter a₂ b₂)
    ∧ (∀ (r₁ r₂ : Row) (f₁ f₂ : Option NameFilters), r₁ = r₂ → f₁ = f₂ →
        nameFilterAlgorithm r₁ f₁ = nameFilterAlgorithm r₂ f₂)
    ∧ (∀ (r₁ r₂ : Row) (f₁ f₂ : Option TagFilters), r₁ = r₂ → f₁ = f₂ →
        tagFilterAlgorithm r₁ f₁ = tagFilterAlgorithm r₂ f₂) := by
  refine ⟨?_, ?_, ?_⟩ <;> · intro x1 x2 y1 y2 h1 h2; rw [h1, h2]

/-- C9 witness: determinism of the comparator instantiated at 10K and 1M. -/
theorem c9_purity_determinism_witness :
    filesizeSorter "10K" "1M" = filesizeSorter "10K" "1M" :=
  c9_purity_determinism.1 "10K" "10K" "1M" "1M" rfl rfl

/-- C10: a string with no digit characters parses to NaN, every comparison
    against NaN is false, and the comparator falls through to 0, so a
    digitless string compares equal to every string in both argument
    orders. -/
theorem c10_digitless_compares_equal :
    ∀ a b : String, containsDigit a = false →
      filesizeSorter a b = 0 ∧ filesizeSorter b a = 0 := by
  intro a b h
  have ha := retnum_eq_nan_of_noDigit a h
  constructor
  · unfold filesizeSorter
    rw [ha]
    cases retnum b <;> simp [jsGt, jsLt]
  · unfold filesizeSorter
    rw [ha]
    cases retnum b <;> simp [jsGt, jsLt]

/-- C10 witness: the empty string (no digits) compares equal to the string
    5 in both orders. -/
theorem c10_digitless_compares_equal_witness :
    containsDigit "" = false ∧ filesizeSorter "" "5" = 0 ∧ filesizeSorter "5" "" = 0 :=
  ⟨by decide, (c10_digitless_compares_equal "" "5" (by decide)).1,
    (c10_digitless_compares_equal "" "5" (by decide)).2⟩
